import Mathlib

/-!
# nser: sending an IPv6 Neighbor Solicitation

A shallow embedding of `main.go` (functions `sendNS` and `main`).

* Bytes are natural numbers; an address (`net.IP`, `net.HardwareAddr`) is a
  list of bytes.
* Calls into the operating system and into libraries whose code is not part
  of `main.go` are the fields of a `World`; an operating-system call sees the
  events that happened before it, so its result may change from call to call.
* A run produces the list of events it caused together with its outcome.
-/

namespace Nser

/-! ## Values -/

/-- Go `error` values: one made outside `main.go`, or one built by
`fmt.Errorf` with the verb `%w`, which keeps the wrapped error. -/
inductive GoError where
  | leaf (msg : String)
  | wrapf (msg : String) (cause : GoError)
  deriving DecidableEq

/-- Method `Error()` of an error value. -/
def GoError.Error : GoError → String
  | .leaf m => m
  | .wrapf m _ => m

/-- The call `fmt.Errorf(pre + "%w" + post, err)`. -/
def Errorf (pre : String) (err : GoError) (post : String) : GoError :=
  .wrapf (pre ++ err.Error ++ post) err

/-- The part of `net.Interface` that `main.go` reads. -/
structure Interface where
  Index : Nat
  HardwareAddr : List Nat
  deriving DecidableEq

/-- Type `ipv6.ControlMessage`, with the two fields that `sendNS` sets. -/
structure ControlMessage where
  Src : List Nat
  IfIndex : Nat
  deriving DecidableEq

/-- Type `layers.IPv6`, with the fields that `sendNS` sets. -/
structure IPv6 where
  SrcIP : List Nat
  DstIP : List Nat
  NextHeader : Nat
  deriving DecidableEq

/-- Type `layers.ICMPv6`: field `TypeCode`, kept as the pair of the ICMPv6
type and code it is created from, and the network layer given to
`SetNetworkLayerForChecksum`. -/
structure ICMPv6 where
  TypeCode : Nat × Nat
  pseudoheader : Option IPv6
  deriving DecidableEq

/-- The call `layers.CreateICMPv6TypeCode(typ, code)`. -/
def CreateICMPv6TypeCode (typ code : Nat) : Nat × Nat := (typ, code)

/-- Type `layers.ICMPv6Option`; `OptType` is its field `Type`. -/
structure ICMPv6Option where
  OptType : Nat
  Data : List Nat
  deriving DecidableEq

/-- Type `layers.ICMPv6NeighborSolicitation`. -/
structure ICMPv6NeighborSolicitation where
  TargetAddress : List Nat
  Options : List ICMPv6Option
  deriving DecidableEq

/-- Type `gopacket.SerializeOptions`. -/
structure SerializeOptions where
  ComputeChecksums : Bool
  FixLengths : Bool
  deriving DecidableEq

/-- Modelled from the spec: the constant `layers.ICMPv6TypeNeighborSolicitation`
is declared outside `main.go`; the spec gives ICMPv6 type 135. -/
def ICMPv6TypeNeighborSolicitation : Nat := 135

/-- Modelled from the spec: the constant `layers.ICMPv6OptSourceAddress` is
declared outside `main.go`; the spec gives option type 1. -/
def ICMPv6OptSourceAddress : Nat := 1

/-- Modelled from the spec: the constant `layers.IPProtocolICMPv6` is declared
outside `main.go`; the spec gives next-header 58. -/
def IPProtocolICMPv6 : Nat := 58

/-- An argument of a formatted print. -/
inductive Arg where
  | str (s : String)
  | int (n : Nat)
  | ip (a : List Nat)
  | err (e : GoError)
  deriving DecidableEq

/-- What a run does, in order. Every call records its result. `SendNSCall` is
a ghost event: it marks the point where `main` calls `sendNS` and carries the
three arguments of the call. -/
inductive Event where
  | InterfaceByName (name : String) (ok : Bool)
  | ListenPacket (network address : String) (conn : Option Nat)
  | SetMulticastHopLimit (conn : Nat) (hoplim : Nat) (ok : Bool)
  | WriteTo (conn : Nat) (b : List Nat) (cm : ControlMessage) (dst : List Nat) (ok : Bool)
  | Close (conn : Nat)
  | RoutingNew (ok : Bool)
  | Route (dst : List Nat) (ok : Bool)
  | Addrs (ok : Bool)
  | Stdout (format : String) (args : List Arg)
  | Log (format : String) (args : List Arg)
  | Usage
  | SendNSCall (ifaceName : String) (sourceIP targetIP : List Nat)
  deriving DecidableEq

/-- How a Go function of result type `error` ends: it returns (`none` is
`nil`), or it panics. -/
inductive Outcome where
  | returned (err : Option GoError)
  | panicked (msg : String)
  deriving DecidableEq

/-- An element of the result of `(*net.Interface).Addrs`: a `*net.IPNet`, or
an address of another dynamic type. -/
inductive Addr where
  | IPNet (IP : List Nat) (Mask : List Nat)
  | other (IP : List Nat)
  deriving DecidableEq

/-- The environment of a run. The first argument of an operating-system call
is the list of events so far. -/
structure World where
  InterfaceByName : List Event → String → Except GoError Interface
  ListenPacket : List Event → String → String → Except GoError Nat
  SetMulticastHopLimit : List Event → Nat → Nat → Option GoError
  WriteTo : List Event → Nat → List Nat → ControlMessage → List Nat → Option GoError
  RoutingNew : List Event → Option GoError
  Route : List Event → List Nat → Except GoError (List Nat)
  Addrs : List Event → Interface → Except GoError (List Addr)
  To4 : List Nat → Option (List Nat)
  ParseIP : String → Option (List Nat)
  SerializeLayers : SerializeOptions → ICMPv6 → ICMPv6NeighborSolicitation →
    Except GoError (List Nat)

/-! ## The serializer

`gopacket.SerializeLayers` and the `SerializeTo` methods of the two layers are
library code outside `main.go`. The checksum and the layout of the message
follow the contract of the Packet Builder in the spec (section 4.2). The
encoding of an option, the copy of the target address and the use of the
serialize options follow what the library does in the build of the program,
where the spec says otherwise. -/

/-- Modelled from the spec: one step of the "standard one's-complement 16-bit
checksum algorithm", the addition of two 16-bit words with end-around carry
(the checksum routine of the library is not in `main.go`). -/
def onesAdd (a b : Nat) : Nat := (a + b) % 65536 + (a + b) / 65536

/-- Modelled from the spec: the one's-complement sum of the big-endian 16-bit
words of a byte sequence, a last odd byte being padded with a zero byte (the
checksum routine of the library is not in `main.go`). -/
def onesSum : List Nat → Nat
  | [] => 0
  | [a] => a * 256
  | a :: b :: rest => onesAdd (a * 256 + b) (onesSum rest)

/-- Modelled from the spec: the 16-bit one's-complement checksum of a byte
sequence, the one's complement of its one's-complement sum (the checksum
routine of the library is not in `main.go`). -/
def checksum (data : List Nat) : Nat := 65535 - onesSum data

/-- Modelled from the spec: the pseudo-header "(source, destination, length,
next-header)" of RFC 2460/8200 as bytes: the two addresses, the upper-layer
length as a 32-bit big-endian number, three zero bytes and the next-header
byte (the library routine that sums it is not in `main.go`). -/
def pseudoHeader (ip : IPv6) (upperLen : Nat) : List Nat :=
  ip.SrcIP ++ ip.DstIP ++
    [upperLen / 16777216 % 256, upperLen / 65536 % 256, upperLen / 256 % 256, upperLen % 256] ++
    [0, 0, 0, ip.NextHeader]

/-- The length byte that the library writes for an option with `len` bytes of
data: the conversion `byte((len + 2) / 8)`, the number of whole 8-byte units
of the two header bytes and the data, rounded down and truncated to a byte.
The spec states the rounded-up number of units. -/
def optionLengthByte (len : Nat) : Nat := (len + 2) / 8 % 256

/-- Method `SerializeTo` of the options of the library (outside `main.go`) on
one option: the type byte, the length byte and the data. The library adds no
padding and checks neither for empty nor for long data, against the spec,
which states zero padding to the unit boundary and a serialization error. -/
def serializeOption (o : ICMPv6Option) : List Nat :=
  [o.OptType, optionLengthByte o.Data.length] ++ o.Data

/-- Modelled from the spec: the "ordered sequence" of options on the wire, one
after the other (the option serializer of the library is not in `main.go`). -/
def serializeOptions : List ICMPv6Option → List Nat
  | [] => []
  | o :: rest => serializeOption o ++ serializeOptions rest

/-- The 16-byte target field of the message: the library copies the target
address into 16 zero bytes, so that a longer address is cut after 16 bytes. -/
def targetField (targetAddress : List Nat) : List Nat :=
  targetAddress.take 16 ++ List.replicate (16 - targetAddress.length) 0

/-- The result of `gopacket.SerializeLayers` on an ICMPv6 layer and a Neighbor
Solicitation layer (library code outside `main.go`). The message is type,
code, checksum, four reserved zero bytes, the target field and the options.
With `ComputeChecksums` the checksum is computed over the pseudo-header
followed by the message with its checksum field zeroed, with upper-layer
length the length of the message, and the call fails when there is no network
layer for the checksum or when its source or destination is not 16 bytes long
(the spec: "fails with ChecksumInputError if addresses are not 16 bytes").
Without `ComputeChecksums` the field `Checksum` of the layer is written, which
`sendNS` leaves zero. -/
def SerializeLayers (opts : SerializeOptions) (icmp : ICMPv6)
    (ns : ICMPv6NeighborSolicitation) : Except GoError (List Nat) :=
  let body := [0, 0, 0, 0] ++ targetField ns.TargetAddress ++ serializeOptions ns.Options
  if opts.ComputeChecksums then
    match icmp.pseudoheader with
    | none => .error (.leaf "ChecksumInputError")
    | some ip =>
      if ip.SrcIP.length ≠ 16 ∨ ip.DstIP.length ≠ 16 then
        .error (.leaf "ChecksumInputError")
      else
        let zeroed := [icmp.TypeCode.1, icmp.TypeCode.2, 0, 0] ++ body
        let c := checksum (pseudoHeader ip zeroed.length ++ zeroed)
        .ok ([icmp.TypeCode.1, icmp.TypeCode.2, c / 256, c % 256] ++ body)
  else
    .ok ([icmp.TypeCode.1, icmp.TypeCode.2, 0, 0] ++ body)

/-! ## `sendNS` -/

/-- Step 3 of `sendNS`: the composite literal
`net.IP{0xff, 0x02, ..., 0x01, 0xff, targetIP[13], targetIP[14], targetIP[15]}`.
`none` stands for the run-time panic of an index out of range. -/
def solicitedNodeAddr (targetIP : List Nat) : Option (List Nat) :=
  match targetIP[13]?, targetIP[14]?, targetIP[15]? with
  | some t13, some t14, some t15 =>
    some [0xff, 0x02, 0x00, 0x00, 0x00, 0x00, 0x00, 0x00,
          0x00, 0x00, 0x00, 0x01, 0xff, t13, t14, t15]
  | _, _, _ => none

/-- Steps 4 and 5 of `sendNS`: the ICMPv6 layer with the network layer for
its checksum, the Neighbor Solicitation layer with its one option, and the
call of `gopacket.SerializeLayers` (here `ser`) on them. -/
def packetData
    (ser : SerializeOptions → ICMPv6 → ICMPv6NeighborSolicitation → Except GoError (List Nat))
    (sourceIP targetIP solicited hardwareAddr : List Nat) : Except GoError (List Nat) :=
  let ipv6LayerForChecksum : IPv6 := ⟨sourceIP, solicited, IPProtocolICMPv6⟩
  let icmpv6Layer : ICMPv6 :=
    ⟨CreateICMPv6TypeCode ICMPv6TypeNeighborSolicitation 0, some ipv6LayerForChecksum⟩
  let nsLayer : ICMPv6NeighborSolicitation :=
    ⟨targetIP, [⟨ICMPv6OptSourceAddress, hardwareAddr⟩]⟩
  ser ⟨true, true⟩ icmpv6Layer nsLayer

/-- Function `sendNS`, run in world `w` after the events `h`. The result is
the list of events of this call, in order, and how the call ends. The deferred
`conn.Close()` is the last event on every path that opened the connection. -/
def sendNS (w : World) (h : List Event) (ifaceName : String) (sourceIP targetIP : List Nat) :
    List Event × Outcome :=
  match w.InterfaceByName h ifaceName with
  | .error err =>
    ([Event.InterfaceByName ifaceName false],
      .returned (some (Errorf ("failed to get interface " ++ ifaceName ++ ": ") err "")))
  | .ok iface =>
    let t1 := [Event.InterfaceByName ifaceName true]
    match w.ListenPacket (h ++ t1) "ip6:58" "::" with
    | .error err =>
      (t1 ++ [Event.ListenPacket "ip6:58" "::" none],
        .returned (some (Errorf "failed to listen for icmpv6 packets: " err
          ". Check for root privileges")))
    | .ok conn =>
      let t2 := t1 ++ [Event.ListenPacket "ip6:58" "::" (some conn)]
      match w.SetMulticastHopLimit (h ++ t2) conn 255 with
      | some err =>
        (t2 ++ [Event.SetMulticastHopLimit conn 255 false, Event.Close conn],
          .returned (some (Errorf "failed to set multicast hop limit: " err "")))
      | none =>
        let t3 := t2 ++ [Event.SetMulticastHopLimit conn 255 true]
        match solicitedNodeAddr targetIP with
        | none => (t3 ++ [Event.Close conn], .panicked "runtime error: index out of range")
        | some solicited =>
          match packetData w.SerializeLayers sourceIP targetIP solicited iface.HardwareAddr with
          | .error err =>
            (t3 ++ [Event.Close conn],
              .returned (some (Errorf "failed to serialize icmpv6 ns layer: " err "")))
          | .ok data =>
            let wcm : ControlMessage := ⟨sourceIP, iface.Index⟩
            match w.WriteTo (h ++ t3) conn data wcm solicited with
            | some err =>
              (t3 ++ [Event.WriteTo conn data wcm solicited false, Event.Close conn],
                .returned (some (Errorf "failed to write packet: " err "")))
            | none =>
              (t3 ++ [Event.WriteTo conn data wcm solicited true,
                  Event.Stdout "Successfully sent Neighbor Solicitation (NS) for %s to %s\n"
                    [Arg.ip targetIP, Arg.ip solicited],
                  Event.Stdout "  Source IP: %s\n" [Arg.ip sourceIP],
                  Event.Close conn],
                .returned none)

/-! ## `main` -/

/-- The four command-line flags after `flag.Parse()`. -/
structure Flags where
  iface : String
  src : String
  dst : String
  gateway : Bool
  deriving DecidableEq

/-- Variable `net.IPv6zero`. -/
def IPv6zero : List Nat := List.replicate 16 0

/-- The loop of `main` that collects `sourceIPs`: the addresses of dynamic
type `*net.IPNet` whose `To4()` is nil, in order. -/
def sourceIPs (w : World) : List Addr → List (List Nat)
  | [] => []
  | Addr.IPNet ip _ :: rest =>
    if (w.To4 ip).isNone then ip :: sourceIPs w rest else sourceIPs w rest
  | Addr.other _ :: rest => sourceIPs w rest

/-- Auto gateway mode of `main` up to the loop over the source addresses:
gateway discovery, interface lookup, address collection. The second component
is `none` when `log.Fatalf` ends the process, and otherwise the gateway and
the source addresses. -/
def discover (w : World) (ifaceName : String) :
    List Event × Option (List Nat × List (List Nat)) :=
  let t0 := [Event.Stdout "[*] Entering Auto Gateway Mode for interface: %s\n" [Arg.str ifaceName]]
  match w.RoutingNew t0 with
  | some err =>
    (t0 ++ [Event.RoutingNew false, Event.Log "Failed to create router: %v" [Arg.err err]], none)
  | none =>
    let t1 := t0 ++ [Event.RoutingNew true]
    match w.Route t1 IPv6zero with
    | .error err =>
      (t1 ++ [Event.Route IPv6zero false,
        Event.Log "Failed to automatically discover gateway: %v" [Arg.err err]], none)
    | .ok gatewayIP =>
      let t2 := t1 ++ [Event.Route IPv6zero true,
        Event.Stdout "[+] Successfully discovered IPv6 gateway: %s\n" [Arg.ip gatewayIP]]
      match w.InterfaceByName t2 ifaceName with
      | .error err =>
        (t2 ++ [Event.InterfaceByName ifaceName false,
          Event.Log "Failed to find interface \x27%s\x27: %v" [Arg.str ifaceName, Arg.err err]], none)
      | .ok iface =>
        let t3 := t2 ++ [Event.InterfaceByName ifaceName true]
        match w.Addrs t3 iface with
        | .error err =>
          (t3 ++ [Event.Addrs false,
            Event.Log "Failed to get addresses for interface \x27%s\x27: %v"
              [Arg.str ifaceName, Arg.err err]], none)
        | .ok addrs =>
          let t4 := t3 ++ [Event.Addrs true]
          let srcs := sourceIPs w addrs
          if srcs.length = 0 then
            (t4 ++ [Event.Log "No IPv6 addresses found on interface \x27%s\x27" [Arg.str ifaceName]],
              none)
          else
            (t4 ++ [Event.Stdout "[+] Found %d IPv6 addresses on interface \x27%s\x27\n"
              [Arg.int srcs.length, Arg.str ifaceName]], some (gatewayIP, srcs))

/-- The loop of `main` over the source addresses, run after the events `h`.
The second component is `none` when the loop runs to its end and the message
of the panic when a call of `sendNS` panics. -/
def sendAll (w : World) (ifaceName : String) (gatewayIP : List Nat) :
    List Event → List (List Nat) → List Event × Option String
  | _, [] => ([], none)
  | h, srcIP :: rest =>
    let t0 := [Event.Stdout "--------------------------------------------------\n" [],
      Event.SendNSCall ifaceName srcIP gatewayIP]
    match sendNS w (h ++ t0) ifaceName srcIP gatewayIP with
    | (t, Outcome.panicked msg) => (t0 ++ t, some msg)
    | (t, Outcome.returned (some err)) =>
      let t1 := t0 ++ t ++
        [Event.Log "Failed to send NS request from %s: %v" [Arg.ip srcIP, Arg.err err]]
      let r := sendAll w ifaceName gatewayIP (h ++ t1) rest
      (t1 ++ r.1, r.2)
    | (t, Outcome.returned none) =>
      let t1 := t0 ++ t ++
        [Event.Stdout "-> Successfully sent NS request from %s to gateway %s\n"
          [Arg.ip srcIP, Arg.ip gatewayIP]]
      let r := sendAll w ifaceName gatewayIP (h ++ t1) rest
      (t1 ++ r.1, r.2)

/-- Function `main`: the events of the process and its exit code (0 when
`main` returns, 1 after `os.Exit(1)` or `log.Fatalf`, 2 after a panic). -/
def main (w : World) (f : Flags) : List Event × Nat :=
  if f.iface = "" then
    ([Event.Log "Error: -iface parameter is required." [], Event.Usage], 1)
  else if f.gateway then
    match discover w f.iface with
    | (t, none) => (t, 1)
    | (t, some (gatewayIP, srcs)) =>
      match sendAll w f.iface gatewayIP t srcs with
      | (t1, none) => (t ++ t1, 0)
      | (t1, some _) => (t ++ t1, 2)
  else if f.src = "" || f.dst = "" then
    ([Event.Log "Error: In manual mode, -src and -dst parameters are required." [],
      Event.Usage], 1)
  else
    match w.ParseIP f.src with
    | none => ([Event.Log "Invalid source IP address: %s" [Arg.str f.src]], 1)
    | some sourceIP =>
      match w.ParseIP f.dst with
      | none => ([Event.Log "Invalid target IP address: %s" [Arg.str f.dst]], 1)
      | some targetIP =>
        let t0 := [Event.SendNSCall f.iface sourceIP targetIP]
        match sendNS w t0 f.iface sourceIP targetIP with
        | (t, Outcome.panicked _) => (t0 ++ t, 2)
        | (t, Outcome.returned (some err)) =>
          (t0 ++ t ++ [Event.Log "Failed to send NS request: %v" [Arg.err err]], 1)
        | (t, Outcome.returned none) => (t0 ++ t, 0)

/-- The calls of `sendNS` recorded in a list of events, as triples of
arguments. -/
def sendNSCalls : List Event → List (String × List Nat × List Nat)
  | [] => []
  | Event.SendNSCall n s t :: rest => (n, s, t) :: sendNSCalls rest
  | _ :: rest => sendNSCalls rest

/-- The plain sum of the big-endian 16-bit words of a byte sequence, a last
odd byte being padded with a zero byte. -/
def wordSum : List Nat → Nat
  | [] => 0
  | [a] => a * 256
  | a :: b :: rest => a * 256 + b + wordSum rest

/-- The representative in `0 .. 65535` of a number in one's-complement
arithmetic: zero for zero, otherwise the number in `1 .. 65535` congruent to
it modulo 65535. -/
def onesNorm (n : Nat) : Nat := if n = 0 then 0 else (n - 1) % 65535 + 1

/-- The option of `sendNS` on the wire, as the library writes it: type 1, the
length byte, the hardware address. -/
def optionBytes (H : List Nat) : List Nat :=
  [ICMPv6OptSourceAddress, optionLengthByte H.length] ++ H

/-- The message with its checksum field (bytes 2 and 3) set to zero. -/
def zeroChecksumField (p : List Nat) : List Nat := (p.set 2 0).set 3 0

/-- The checksum that the serializer writes for source `S`, destination `sn`,
target `T` and hardware address `H`. -/
def nsChecksum (S sn T H : List Nat) : Nat :=
  checksum (pseudoHeader ⟨S, sn, IPProtocolICMPv6⟩
      ([135, 0, 0, 0] ++ ([0, 0, 0, 0] ++ targetField T ++ optionBytes H)).length ++
    ([135, 0, 0, 0] ++ ([0, 0, 0, 0] ++ targetField T ++ optionBytes H)))

/-- The address 2001:db8::1. -/
def exSource : List Nat := [0x20, 0x01, 0x0d, 0xb8, 0, 0, 0, 0, 0, 0, 0, 0, 0, 0, 0, 1]

/-- The address 2001:db8::abcd:ef01:2345. -/
def exTarget : List Nat :=
  [0x20, 0x01, 0x0d, 0xb8, 0, 0, 0, 0, 0, 0, 0xab, 0xcd, 0xef, 0x01, 0x23, 0x45]

/-- The address ff02::1:ff01:2345. -/
def exSolicited : List Nat :=
  [0xff, 0x02, 0, 0, 0, 0, 0, 0, 0, 0, 0, 0x01, 0xff, 0x01, 0x23, 0x45]

/-- The hardware address aa:bb:cc:dd:ee:ff. -/
def exHardwareAddr : List Nat := [0xaa, 0xbb, 0xcc, 0xdd, 0xee, 0xff]

/-- The message built for `exSource`, `exTarget` and `exHardwareAddr`;
its checksum is 0xd637. -/
def exPacket : List Nat :=
  [135, 0, 0xd6, 0x37, 0, 0, 0, 0,
   0x20, 0x01, 0x0d, 0xb8, 0, 0, 0, 0, 0, 0, 0xab, 0xcd, 0xef, 0x01, 0x23, 0x45,
   1, 1, 0xaa, 0xbb, 0xcc, 0xdd, 0xee, 0xff]

/-- The message built for `exSource`, `exTarget` and the 3-byte hardware
address aa:bb:cc: 29 bytes, the option being 01 00 aa bb cc. -/
def exShortPacket : List Nat :=
  [135, 0, 198, 24, 0, 0, 0, 0,
   0x20, 0x01, 0x0d, 0xb8, 0, 0, 0, 0, 0, 0, 0xab, 0xcd, 0xef, 0x01, 0x23, 0x45,
   1, 0, 0xaa, 0xbb, 0xcc]

/-- The message built for `exSource`, `exTarget` and an empty hardware
address: 26 bytes, the option being 01 00. -/
def exEmptyPacket : List Nat :=
  [135, 0, 60, 216, 0, 0, 0, 0,
   0x20, 0x01, 0x0d, 0xb8, 0, 0, 0, 0, 0, 0, 0xab, 0xcd, 0xef, 0x01, 0x23, 0x45,
   1, 0]

/-- Whether an event is a packet write. -/
def Event.isWrite : Event → Bool
  | Event.WriteTo _ _ _ _ _ => true
  | _ => false

/-- A world in which every call succeeds: the interface has index 2 and
hardware address aa:bb:cc:dd:ee:ff, connections get the handle 3, the route
lookup finds the gateway 2001:db8::abcd:ef01:2345, the interface has the three
IPv6 addresses 2001:db8::1, ::1 and fe80::1 and one address of another kind,
and the serializer is `SerializeLayers`. -/
def exWorld : World where
  InterfaceByName := fun _ _ => .ok ⟨2, exHardwareAddr⟩
  ListenPacket := fun _ _ _ => .ok 3
  SetMulticastHopLimit := fun _ _ _ => none
  WriteTo := fun _ _ _ _ _ => none
  RoutingNew := fun _ => none
  Route := fun _ _ => .ok exTarget
  Addrs := fun _ _ => .ok [Addr.IPNet exSource [], Addr.other [127, 0, 0, 1],
    Addr.IPNet [0, 0, 0, 0, 0, 0, 0, 0, 0, 0, 0, 0, 0, 0, 0, 1] [],
    Addr.IPNet [0xfe, 0x80, 0, 0, 0, 0, 0, 0, 0, 0, 0, 0, 0, 0, 0, 1] []]
  To4 := fun _ => none
  ParseIP := fun _ => none
  SerializeLayers := SerializeLayers

/-- The world `exWorld` with an interface that has no hardware address. -/
def exWorldNoHardwareAddr : World :=
  { exWorld with InterfaceByName := fun _ _ => .ok ⟨1, []⟩ }

/-- The world `exWorld` with a route lookup that succeeds without a gateway
(a nil `net.IP`). -/
def exWorldNoGateway : World :=
  { exWorld with Route := fun _ _ => .ok [] }

/-- The world `exWorld` without the interface that is looked up. -/
def exWorldNoInterface : World :=
  { exWorld with InterfaceByName := fun _ _ => .error (GoError.leaf "no such network interface") }

/-- The world `exWorld` in which setting the hop limit fails. -/
def exWorldNoHopLimit : World :=
  { exWorld with SetMulticastHopLimit := fun _ _ _ => some (GoError.leaf "invalid argument") }

/-- The world `exWorld` in which opening the connection fails while fewer
than 12 events have happened: in auto gateway mode the first call of `sendNS`
fails and the later calls succeed. -/
def exWorldFlaky : World :=
  { exWorld with
    ListenPacket := fun h _ _ =>
      if h.length < 12 then .error (GoError.leaf "operation not permitted") else .ok 3 }

/-! ## Lemmas -/

theorem eq_of_length_16 (T : List Nat) (h : T.length = 16) :
    ∃ a0 a1 a2 a3 a4 a5 a6 a7 a8 a9 a10 a11 a12 a13 a14 a15,
      T = [a0, a1, a2, a3, a4, a5, a6, a7, a8, a9, a10, a11, a12, a13, a14, a15] := by
  match T, h with
  | [a0, a1, a2, a3, a4, a5, a6, a7, a8, a9, a10, a11, a12, a13, a14, a15], _ =>
    exact ⟨a0, a1, a2, a3, a4, a5, a6, a7, a8, a9, a10, a11, a12, a13, a14, a15, rfl⟩

theorem solicitedNodeAddr_of_le (T : List Nat) (h : 16 ≤ T.length) :
    solicitedNodeAddr T = some [0xff, 0x02, 0, 0, 0, 0, 0, 0, 0, 0, 0, 0x01, 0xff,
      T.getD 13 0, T.getD 14 0, T.getD 15 0] := by
  have h13 : T[13]? = some (T.getD 13 0) := by
    rw [List.getD_eq_getElem?_getD, List.getElem?_eq_getElem (by omega)]; rfl
  have h14 : T[14]? = some (T.getD 14 0) := by
    rw [List.getD_eq_getElem?_getD, List.getElem?_eq_getElem (by omega)]; rfl
  have h15 : T[15]? = some (T.getD 15 0) := by
    rw [List.getD_eq_getElem?_getD, List.getElem?_eq_getElem (by omega)]; rfl
  simp only [solicitedNodeAddr, h13, h14, h15]

theorem solicitedNodeAddr_of_lt (T : List Nat) (h : T.length < 16) :
    solicitedNodeAddr T = none := by
  have h15 : T[15]? = none := List.getElem?_eq_none (by omega)
  unfold solicitedNodeAddr
  rw [h15]
  split
  · rename_i heq; simp at heq
  · rfl

theorem onesAdd_onesNorm (x s : Nat) (hx : x ≤ 65535) :
    onesAdd x (onesNorm s) = onesNorm (x + s) := by
  unfold onesAdd onesNorm
  split_ifs <;> omega

theorem onesSum_eq_onesNorm : ∀ l : List Nat, (∀ b ∈ l, b < 256) →
    onesSum l = onesNorm (wordSum l)
  | [], _ => by simp [onesSum, wordSum, onesNorm]
  | [a], h => by
    have ha : a < 256 := h a (by simp)
    simp only [onesSum, wordSum, onesNorm]
    split_ifs <;> omega
  | a :: b :: rest, h => by
    have ha : a < 256 := h a (by simp)
    have hb : b < 256 := h b (by simp)
    have ih := onesSum_eq_onesNorm rest (fun x hx => h x (by simp [hx]))
    simp only [onesSum, wordSum, ih]
    rw [onesAdd_onesNorm _ _ (by omega)]

theorem wordSum_append : ∀ (l₁ l₂ : List Nat), l₁.length % 2 = 0 →
    wordSum (l₁ ++ l₂) = wordSum l₁ + wordSum l₂
  | [], l₂, _ => by simp [wordSum]
  | [a], _, h => by simp at h
  | a :: b :: rest, l₂, h => by
    have ih := wordSum_append rest l₂ (by simp at h; omega)
    show wordSum (a :: b :: (rest ++ l₂)) = wordSum (a :: b :: rest) + wordSum l₂
    simp only [wordSum, ih]
    omega

theorem onesNorm_add_complement (z : Nat) :
    onesNorm (z + (65535 - onesNorm z)) = 65535 := by
  unfold onesNorm
  split_ifs <;> first | omega | contradiction

theorem onesNorm_le (z : Nat) : onesNorm z ≤ 65535 := by
  unfold onesNorm
  split_ifs <;> omega

theorem targetField_eq (T : List Nat) (hT : T.length = 16) : targetField T = T := by
  unfold targetField
  rw [hT, List.take_of_length_le (by omega)]
  simp

theorem targetField_length (T : List Nat) : (targetField T).length = 16 := by
  simp only [targetField, List.length_append, List.length_take, List.length_replicate]
  omega

theorem targetField_lt (T : List Nat) (hT : ∀ b ∈ T, b < 256) :
    ∀ b ∈ targetField T, b < 256 := by
  intro b hb
  simp only [targetField, List.mem_append, List.mem_replicate] at hb
  rcases hb with h | h
  · exact hT b (List.mem_of_mem_take h)
  · omega

theorem packetData_ok (S T sn H p : List Nat)
    (hp : packetData SerializeLayers S T sn H = .ok p) :
    S.length = 16 ∧ sn.length = 16 ∧
    ∃ c, c = checksum (pseudoHeader ⟨S, sn, 58⟩ p.length ++
          ([135, 0, 0, 0] ++ ([0, 0, 0, 0] ++ targetField T ++ optionBytes H))) ∧
      p = [135, 0, c / 256, c % 256] ++ ([0, 0, 0, 0] ++ targetField T ++ optionBytes H) := by
  simp only [packetData, SerializeLayers, serializeOptions, serializeOption,
    CreateICMPv6TypeCode, ICMPv6TypeNeighborSolicitation, IPProtocolICMPv6, if_true,
    List.append_nil] at hp
  split at hp
  · simp at hp
  · rename_i hlen
    simp only [Except.ok.injEq] at hp
    have hl : p.length =
        ([135, 0, 0, 0] ++ ([0, 0, 0, 0] ++ targetField T ++ optionBytes H)).length := by
      rw [← hp]; simp [optionBytes]
    refine ⟨by omega, by omega, ⟨_, rfl, ?_⟩⟩
    rw [hl]
    exact hp.symm

theorem pseudoHeader_lt (S D : List Nat) (nh n : Nat) (hS : ∀ b ∈ S, b < 256)
    (hD : ∀ b ∈ D, b < 256) (hnh : nh < 256) : ∀ b ∈ pseudoHeader ⟨S, D, nh⟩ n, b < 256 := by
  intro b hb
  simp only [pseudoHeader, List.mem_append, List.mem_cons, List.mem_singleton,
    List.not_mem_nil, or_false] at hb
  rcases hb with ((h | h) | h) | h
  · exact hS b h
  · exact hD b h
  · rcases h with h | h | h | h <;> omega
  · rcases h with h | h | h | h <;> omega

theorem optionBytes_lt (H : List Nat) (hH : ∀ b ∈ H, b < 256) :
    ∀ b ∈ optionBytes H, b < 256 := by
  intro b hb
  simp only [optionBytes, ICMPv6OptSourceAddress, optionLengthByte, List.mem_append,
    List.mem_cons, List.mem_singleton, List.not_mem_nil, or_false] at hb
  rcases hb with (h | h) | h
  · omega
  · omega
  · exact hH b h

theorem solicitedNodeAddr_lt (T sn : List Nat) (hT : ∀ b ∈ T, b < 256)
    (hsn : solicitedNodeAddr T = some sn) : ∀ b ∈ sn, b < 256 := by
  unfold solicitedNodeAddr at hsn
  split at hsn
  · rename_i t13 t14 t15 h13 h14 h15
    have m13 := hT _ (List.getElem?_mem h13)
    have m14 := hT _ (List.getElem?_mem h14)
    have m15 := hT _ (List.getElem?_mem h15)
    simp only [Option.some.injEq] at hsn
    subst hsn
    intro b hb
    simp only [List.mem_cons, List.mem_singleton, List.not_mem_nil, or_false] at hb
    omega
  · simp at hsn

/-- The checksum of the pseudo-header followed by a message whose checksum
field holds the checksum of the same bytes with that field zeroed is zero. -/
theorem checksum_filled (ph body : List Nat) (t k : Nat) (hph : ph.length % 2 = 0)
    (hb : ∀ b ∈ ph ++ ([t, k, 0, 0] ++ body), b < 256) :
    checksum (ph ++ ([t, k, checksum (ph ++ ([t, k, 0, 0] ++ body)) / 256,
      checksum (ph ++ ([t, k, 0, 0] ++ body)) % 256] ++ body)) = 0 := by
  have hz := onesSum_eq_onesNorm _ hb
  have hc : checksum (ph ++ ([t, k, 0, 0] ++ body)) =
      65535 - onesNorm (wordSum (ph ++ ([t, k, 0, 0] ++ body))) := by
    rw [checksum, hz]
  have hle := onesNorm_le (wordSum (ph ++ ([t, k, 0, 0] ++ body)))
  rw [hc]
  generalize hZ : wordSum (ph ++ ([t, k, 0, 0] ++ body)) = Z at hle
  have hfull : ∀ b ∈ ph ++ ([t, k, (65535 - onesNorm Z) / 256, (65535 - onesNorm Z) % 256] ++ body),
      b < 256 := by
    intro b hm
    simp only [List.mem_append, List.mem_cons, List.mem_singleton, List.not_mem_nil,
      or_false, List.cons_append, List.nil_append] at hm hb
    rcases hm with h | h | h | h | h | h
    · exact hb b (Or.inl h)
    · exact hb b (Or.inr (Or.inl h))
    · exact hb b (Or.inr (Or.inr (Or.inl h)))
    · omega
    · omega
    · exact hb b (Or.inr (Or.inr (Or.inr (Or.inr (Or.inr h)))))
  rw [checksum, onesSum_eq_onesNorm _ hfull, wordSum_append _ _ hph]
  rw [wordSum_append _ _ hph] at hZ
  have e1 : wordSum ([t, k, (65535 - onesNorm Z) / 256, (65535 - onesNorm Z) % 256] ++ body) =
      wordSum ([t, k, 0, 0] ++ body) + (65535 - onesNorm Z) := by
    simp only [List.cons_append, List.nil_append, wordSum]
    omega
  rw [e1, ← Nat.add_assoc, hZ, onesNorm_add_complement]

theorem packetData_eq (S T sn H : List Nat) (hS : S.length = 16) (hsn : sn.length = 16) :
    packetData SerializeLayers S T sn H =
      .ok ([135, 0, nsChecksum S sn T H / 256, nsChecksum S sn T H % 256] ++
        ([0, 0, 0, 0] ++ targetField T ++ optionBytes H)) := by
  have h2 : ¬ (S.length ≠ 16 ∨ sn.length ≠ 16) := by omega
  simp only [packetData, SerializeLayers, serializeOptions, serializeOption, if_neg h2, if_true,
    List.append_nil]
  rfl

theorem ceil_units (n : Nat) : Nat.ceil (((2 + n : Nat) : ℚ) / 8) = (2 + n + 7) / 8 := by
  rw [Nat.ceil_eq_iff (by omega)]
  constructor
  · rw [lt_div_iff₀ (by norm_num)]
    have h : ((2 + n + 7) / 8 - 1) * 8 < 2 + n := by omega
    exact_mod_cast h
  · rw [div_le_iff₀ (by norm_num)]
    have h : 2 + n ≤ ((2 + n + 7) / 8) * 8 := by omega
    exact_mod_cast h

theorem sendNSCalls_append (l₁ l₂ : List Event) :
    sendNSCalls (l₁ ++ l₂) = sendNSCalls l₁ ++ sendNSCalls l₂ := by
  induction l₁ with
  | nil => rfl
  | cons e l ih => cases e <;> simp [sendNSCalls, ih]

theorem sendNSCalls_sendNS (w : World) (h : List Event) (ifaceName : String)
    (sourceIP targetIP : List Nat) :
    sendNSCalls (sendNS w h ifaceName sourceIP targetIP).1 = [] := by
  simp only [sendNS]
  repeat' split
  all_goals rfl

theorem sendNS_returns (w : World) (h : List Event) (ifaceName : String)
    (sourceIP targetIP : List Nat) (hT : 16 ≤ targetIP.length) :
    ∃ err, (sendNS w h ifaceName sourceIP targetIP).2 = Outcome.returned err := by
  simp only [sendNS, solicitedNodeAddr_of_le targetIP hT]
  repeat' split
  all_goals exact ⟨_, rfl⟩

theorem sendNSCalls_discover (w : World) (ifaceName : String) :
    sendNSCalls (discover w ifaceName).1 = [] := by
  simp only [discover]
  repeat' split
  all_goals rfl

theorem sendAll_calls (w : World) (ifaceName : String) (gatewayIP : List Nat)
    (hg : 16 ≤ gatewayIP.length) : ∀ (srcs : List (List Nat)) (h : List Event),
    sendNSCalls (sendAll w ifaceName gatewayIP h srcs).1 =
        srcs.map (fun s => (ifaceName, s, gatewayIP)) ∧
      (sendAll w ifaceName gatewayIP h srcs).2 = none
  | [], h => by simp [sendAll, sendNSCalls]
  | srcIP :: rest, h => by
    have hc := sendNSCalls_sendNS w
      (h ++ [Event.Stdout "--------------------------------------------------\n" [],
        Event.SendNSCall ifaceName srcIP gatewayIP]) ifaceName srcIP gatewayIP
    obtain ⟨err, hr⟩ := sendNS_returns w
      (h ++ [Event.Stdout "--------------------------------------------------\n" [],
        Event.SendNSCall ifaceName srcIP gatewayIP]) ifaceName srcIP gatewayIP hg
    rcases hres : sendNS w
      (h ++ [Event.Stdout "--------------------------------------------------\n" [],
        Event.SendNSCall ifaceName srcIP gatewayIP]) ifaceName srcIP gatewayIP with ⟨t, o⟩
    rw [hres] at hc hr
    simp only at hc hr
    subst hr
    cases err with
    | none =>
      have ih := sendAll_calls w ifaceName gatewayIP hg rest
        (h ++ ([Event.Stdout "--------------------------------------------------\n" [],
          Event.SendNSCall ifaceName srcIP gatewayIP] ++ t ++
          [Event.Stdout "-> Successfully sent NS request from %s to gateway %s\n"
            [Arg.ip srcIP, Arg.ip gatewayIP]]))
      simp only [sendAll, hres, sendNSCalls_append, ih, hc, List.map_cons]
      simp [sendNSCalls]
    | some e =>
      have ih := sendAll_calls w ifaceName gatewayIP hg rest
        (h ++ ([Event.Stdout "--------------------------------------------------\n" [],
          Event.SendNSCall ifaceName srcIP gatewayIP] ++ t ++
          [Event.Log "Failed to send NS request from %s: %v" [Arg.ip srcIP, Arg.err e]]))
      simp only [sendAll, hres, sendNSCalls_append, ih, hc, List.map_cons]
      simp [sendNSCalls]

theorem discover_ne_nil (w : World) (ifaceName : String) (g : List Nat)
    (srcs : List (List Nat)) (hd : (discover w ifaceName).2 = some (g, srcs)) : srcs ≠ [] := by
  simp only [discover] at hd
  repeat' split at hd
  all_goals simp at hd
  rename_i hlen
  obtain ⟨-, rfl⟩ := hd
  intro h0
  exact hlen (by rw [h0]; rfl)

/-! ## Claims -/

/-- Claim C1. For every 16-byte target address the solicited-node address of
`sendNS` exists, has 16 bytes, starts with the 13 bytes
ff 02 00 00 00 00 00 00 00 00 00 01 ff, and its bytes 13, 14 and 15 are those
of the target; `::1` gives ff02::1:ff00:0001 and 2001:db8::abcd:ef01:2345 gives
ff02::1:ff01:2345. -/
theorem solicitedNodeAddr_spec (T : List Nat) (hT : T.length = 16) :
    (∃ a, solicitedNodeAddr T = some a ∧ a.length = 16 ∧
      a.take 13 = [0xff, 0x02, 0x00, 0x00, 0x00, 0x00, 0x00, 0x00, 0x00, 0x00, 0x00, 0x01, 0xff] ∧
      a[13]? = T[13]? ∧ a[14]? = T[14]? ∧ a[15]? = T[15]?) ∧
    solicitedNodeAddr [0, 0, 0, 0, 0, 0, 0, 0, 0, 0, 0, 0, 0, 0, 0, 1] =
      some [0xff, 0x02, 0, 0, 0, 0, 0, 0, 0, 0, 0, 0x01, 0xff, 0x00, 0x00, 0x01] ∧
    solicitedNodeAddr
        [0x20, 0x01, 0x0d, 0xb8, 0, 0, 0, 0, 0, 0, 0xab, 0xcd, 0xef, 0x01, 0x23, 0x45] =
      some [0xff, 0x02, 0, 0, 0, 0, 0, 0, 0, 0, 0, 0x01, 0xff, 0x01, 0x23, 0x45] := by
  obtain ⟨a0, a1, a2, a3, a4, a5, a6, a7, a8, a9, a10, a11, a12, a13, a14, a15, rfl⟩ :=
    eq_of_length_16 T hT
  exact ⟨⟨_, rfl, rfl, rfl, rfl, rfl, rfl⟩, by decide, by decide⟩

/-- Witness of claim C1 at the target fe80::1:2:3 (last three bytes 02 00 03). -/
theorem solicitedNodeAddr_spec_witness :
    [0xfe, 0x80, 0, 0, 0, 0, 0, 0, 0, 0, 0, 1, 0, 2, 0, 3].length = 16 ∧
    ∃ a, solicitedNodeAddr [0xfe, 0x80, 0, 0, 0, 0, 0, 0, 0, 0, 0, 1, 0, 2, 0, 3] = some a ∧
      a.length = 16 ∧
      a.take 13 = [0xff, 0x02, 0x00, 0x00, 0x00, 0x00, 0x00, 0x00, 0x00, 0x00, 0x00, 0x01, 0xff] ∧
      a[13]? = some 2 ∧ a[14]? = some 0 ∧ a[15]? = some 3 :=
  ⟨by decide, (solicitedNodeAddr_spec [0xfe, 0x80, 0, 0, 0, 0, 0, 0, 0, 0, 0, 1, 0, 2, 0, 3]
    (by decide)).1⟩

/-- Claim C2. Checksum round-trip, on the serializer of the library: when the
build of `sendNS` succeeds for a source S, a target T with solicited-node
address sn and a hardware address H (all of them bytes), the checksum of the
pseudo-header (S, sn, length of the message, next-header 58) followed by the
whole message is zero, and the checksum field of the message holds the checksum
of the pseudo-header followed by the message with that field zeroed. -/
theorem checksum_roundtrip (S T H sn p : List Nat)
    (hS : ∀ b ∈ S, b < 256) (hT : ∀ b ∈ T, b < 256) (hH : ∀ b ∈ H, b < 256)
    (hsn : solicitedNodeAddr T = some sn)
    (hp : packetData SerializeLayers S T sn H = .ok p) :
    checksum (pseudoHeader ⟨S, sn, IPProtocolICMPv6⟩ p.length ++ p) = 0 ∧
    p.getD 2 0 * 256 + p.getD 3 0 =
      checksum (pseudoHeader ⟨S, sn, IPProtocolICMPv6⟩ p.length ++ zeroChecksumField p) ∧
    p.getD 2 0 < 256 ∧ p.getD 3 0 < 256 := by
  obtain ⟨hSl, hsl, c, hc, hpe⟩ := packetData_ok S T sn H p hp
  have hph : (pseudoHeader ⟨S, sn, 58⟩ p.length).length % 2 = 0 := by
    simp [pseudoHeader, hSl, hsl]
  have hbytes : ∀ b ∈ pseudoHeader ⟨S, sn, 58⟩ p.length ++
      ([135, 0, 0, 0] ++ ([0, 0, 0, 0] ++ targetField T ++ optionBytes H)), b < 256 := by
    intro b hb
    rcases List.mem_append.1 hb with h | h
    · exact pseudoHeader_lt S sn 58 _ hS (solicitedNodeAddr_lt T sn hT hsn) (by omega) b h
    · simp only [List.mem_append, List.mem_cons, List.mem_singleton, List.not_mem_nil,
        or_false] at h
      rcases h with h | (h | h) | h
      · omega
      · omega
      · exact targetField_lt T hT b h
      · exact optionBytes_lt H hH b h
  have hfill := checksum_filled _ ([0, 0, 0, 0] ++ targetField T ++ optionBytes H) 135 0 hph hbytes
  rw [← hc] at hfill
  have hcle : c ≤ 65535 := by rw [hc, checksum]; omega
  have hz : zeroChecksumField p =
      [135, 0, 0, 0] ++ ([0, 0, 0, 0] ++ targetField T ++ optionBytes H) := by
    rw [hpe]; rfl
  have h2 : p.getD 2 0 = c / 256 := by rw [hpe]; rfl
  have h3 : p.getD 3 0 = c % 256 := by rw [hpe]; rfl
  refine ⟨?_, ?_, by omega, by omega⟩
  · show checksum (pseudoHeader ⟨S, sn, 58⟩ p.length ++ p) = 0
    rw [hpe] at hfill ⊢
    simpa using hfill
  · show _ = checksum (pseudoHeader ⟨S, sn, 58⟩ p.length ++ zeroChecksumField p)
    rw [hz, ← hc, h2, h3]
    omega

/-- Witness of claim C2 at source 2001:db8::1, target 2001:db8::abcd:ef01:2345
and hardware address aa:bb:cc:dd:ee:ff. -/
theorem checksum_roundtrip_witness :
    packetData SerializeLayers exSource exTarget exSolicited exHardwareAddr = .ok exPacket ∧
    checksum (pseudoHeader ⟨exSource, exSolicited, IPProtocolICMPv6⟩ exPacket.length ++
      exPacket) = 0 :=
  ⟨rfl, (checksum_roundtrip exSource exTarget exHardwareAddr exSolicited exPacket
    (by decide) (by decide) (by decide) rfl rfl).1⟩

/-- Claim C3. On the serializer of the library, for a 16-byte source, a 16-byte
target T and a 6-byte hardware address H the build of `sendNS` succeeds with
the 32 bytes: 135, 0, the two bytes of the checksum, four zero bytes, T, then
the one option 1, 1, H. For source 2001:db8::1, target
2001:db8::abcd:ef01:2345 and H = aa:bb:cc:dd:ee:ff the destination is
ff02::1:ff01:2345 and the checksum bytes are d6 37, not both zero. -/
theorem packetData_ethernet (S T H : List Nat) (hS : S.length = 16) (hT : T.length = 16)
    (hH : H.length = 6) :
    (∃ sn c, solicitedNodeAddr T = some sn ∧
      c = checksum (pseudoHeader ⟨S, sn, IPProtocolICMPv6⟩ 32 ++
        ([135, 0, 0, 0, 0, 0, 0, 0] ++ T ++ [1, 1] ++ H)) ∧
      c / 256 < 256 ∧ c % 256 < 256 ∧
      packetData SerializeLayers S T sn H =
        .ok ([135, 0, c / 256, c % 256, 0, 0, 0, 0] ++ T ++ [1, 1] ++ H) ∧
      ([135, 0, c / 256, c % 256, 0, 0, 0, 0] ++ T ++ [1, 1] ++ H).length = 32) ∧
    solicitedNodeAddr exTarget = some exSolicited ∧
    packetData SerializeLayers exSource exTarget exSolicited exHardwareAddr = .ok exPacket ∧
    exPacket.take 8 = [135, 0, 0xd6, 0x37, 0, 0, 0, 0] ∧
    exPacket.drop 8 = exTarget ++ [1, 1] ++ exHardwareAddr := by
  refine ⟨?_, rfl, rfl, rfl, rfl⟩
  obtain ⟨sn, hsn, hsl⟩ : ∃ sn, solicitedNodeAddr T = some sn ∧ sn.length = 16 :=
    ⟨_, solicitedNodeAddr_of_le T (by omega), rfl⟩
  have hob : optionBytes H = [1, 1] ++ H := by
    simp [optionBytes, hH, ICMPv6OptSourceAddress, optionLengthByte]
  have hc : nsChecksum S sn T H ≤ 65535 := by
    unfold nsChecksum checksum; omega
  have hce : nsChecksum S sn T H = checksum (pseudoHeader ⟨S, sn, IPProtocolICMPv6⟩ 32 ++
      ([135, 0, 0, 0, 0, 0, 0, 0] ++ T ++ [1, 1] ++ H)) := by
    unfold nsChecksum
    rw [hob, targetField_eq T hT]
    simp [hT, hH]
  refine ⟨sn, nsChecksum S sn T H, hsn, hce, by omega, by omega, ?_, ?_⟩
  · rw [packetData_eq S T sn H hS hsl, hob, targetField_eq T hT]
    simp
  · simp [hT, hH]

/-- Witness of claim C3 at source 2001:db8::1, target ::1 and hardware address
aa:bb:cc:dd:ee:ff. -/
theorem packetData_ethernet_witness :
    exSource.length = 16 ∧ [0, 0, 0, 0, 0, 0, 0, 0, 0, 0, 0, 0, 0, 0, 0, 1].length = 16 ∧
    exHardwareAddr.length = 6 ∧
    ∃ sn c, solicitedNodeAddr [0, 0, 0, 0, 0, 0, 0, 0, 0, 0, 0, 0, 0, 0, 0, 1] = some sn ∧
      c = checksum (pseudoHeader ⟨exSource, sn, IPProtocolICMPv6⟩ 32 ++
        ([135, 0, 0, 0, 0, 0, 0, 0] ++ [0, 0, 0, 0, 0, 0, 0, 0, 0, 0, 0, 0, 0, 0, 0, 1] ++
          [1, 1] ++ exHardwareAddr)) ∧
      c / 256 < 256 ∧ c % 256 < 256 ∧
      packetData SerializeLayers exSource [0, 0, 0, 0, 0, 0, 0, 0, 0, 0, 0, 0, 0, 0, 0, 1] sn
          exHardwareAddr =
        .ok ([135, 0, c / 256, c % 256, 0, 0, 0, 0] ++
          [0, 0, 0, 0, 0, 0, 0, 0, 0, 0, 0, 0, 0, 0, 0, 1] ++ [1, 1] ++ exHardwareAddr) ∧
      ([135, 0, c / 256, c % 256, 0, 0, 0, 0] ++
          [0, 0, 0, 0, 0, 0, 0, 0, 0, 0, 0, 0, 0, 0, 0, 1] ++ [1, 1] ++ exHardwareAddr).length
        = 32 :=
  ⟨rfl, rfl, rfl, (packetData_ethernet exSource [0, 0, 0, 0, 0, 0, 0, 0, 0, 0, 0, 0, 0, 0, 0, 1]
    exHardwareAddr rfl rfl rfl).1⟩

/-- Claim C4, as stated, fails. For the 3-byte hardware address aa:bb:cc the
build of `sendNS` gives 29 bytes whose option is 01 00 aa bb cc: the length
byte is 0 and there is no padding, where the claim has the length byte
ceil(5 / 8) = 1, three zero bytes of padding and a message of 32 bytes. -/
theorem option_encoding_counterexample :
    packetData SerializeLayers exSource exTarget exSolicited [0xaa, 0xbb, 0xcc] =
      .ok exShortPacket ∧
    exShortPacket.length = 29 ∧
    exShortPacket.drop 24 = [1, 0, 0xaa, 0xbb, 0xcc] ∧
    ¬ (exShortPacket.drop 24 =
        [1, Nat.ceil (((2 + [0xaa, 0xbb, 0xcc].length : Nat) : ℚ) / 8)] ++ [0xaa, 0xbb, 0xcc] ++
          List.replicate
            (8 * Nat.ceil (((2 + [0xaa, 0xbb, 0xcc].length : Nat) : ℚ) / 8) -
              (2 + [0xaa, 0xbb, 0xcc].length)) 0 ∧
      (exShortPacket.drop 24).length =
        8 * Nat.ceil (((2 + [0xaa, 0xbb, 0xcc].length : Nat) : ℚ) / 8) ∧
      exShortPacket.length =
        24 + 8 * Nat.ceil (((2 + [0xaa, 0xbb, 0xcc].length : Nat) : ℚ) / 8)) := by
  refine ⟨rfl, rfl, rfl, ?_⟩
  rintro ⟨-, -, h⟩
  have hl : exShortPacket.length = 29 := rfl
  omega

/-- Claim C4, amended. When the build of `sendNS` succeeds for a non-empty
hardware address H of length n, the message is 24 bytes followed by the
option: the type byte 1, the length byte floor((2 + n) / 8) modulo 256, then
H, with no padding; the option has 2 + n bytes and the message 26 + n. When
2 + n is a multiple of 8 (as for n = 6) and n is at most 2038, the length byte
is ceil((2 + n) / 8) and the option has 8 * ceil((2 + n) / 8) bytes. -/
theorem option_encoding_library (S T sn H p : List Nat) (_hH : H ≠ [])
    (hp : packetData SerializeLayers S T sn H = .ok p) :
    p.drop 24 = [1, (2 + H.length) / 8 % 256] ++ H ∧
    (p.drop 24).length = 2 + H.length ∧
    p.length = 26 + H.length ∧
    ((2 + H.length) % 8 = 0 → H.length ≤ 2038 →
      (2 + H.length) / 8 % 256 = Nat.ceil (((2 + H.length : Nat) : ℚ) / 8) ∧
      (p.drop 24).length = 8 * Nat.ceil (((2 + H.length : Nat) : ℚ) / 8)) := by
  obtain ⟨-, -, c, -, hpe⟩ := packetData_ok S T sn H p hp
  have htl := targetField_length T
  have hd : p.drop 24 = [1, (2 + H.length) / 8 % 256] ++ H := by
    rw [hpe]
    have h24 : ([135, 0, c / 256, c % 256] ++ ([0, 0, 0, 0] ++ targetField T)).length = 24 := by
      simp [htl]
    have hsplit : [135, 0, c / 256, c % 256] ++ ([0, 0, 0, 0] ++ targetField T ++ optionBytes H) =
        ([135, 0, c / 256, c % 256] ++ ([0, 0, 0, 0] ++ targetField T)) ++ optionBytes H := by
      simp
    rw [hsplit, List.drop_left' h24]
    simp [optionBytes, ICMPv6OptSourceAddress, optionLengthByte, Nat.add_comm]
  have hpl : p.length = 26 + H.length := by
    rw [hpe]
    simp only [List.length_append, List.length_cons, List.length_nil, htl, optionBytes]
    omega
  refine ⟨hd, by rw [hd]; simp; omega, hpl, ?_⟩
  intro h8 hn
  rw [ceil_units, hd]
  constructor
  · omega
  · simp; omega

/-- Witness of claim C4, amended, at the 3-byte hardware address aa:bb:cc and
at the 6-byte hardware address aa:bb:cc:dd:ee:ff, for which the option is
01 01 aa bb cc dd ee ff. -/
theorem option_encoding_library_witness :
    [0xaa, 0xbb, 0xcc] ≠ [] ∧
    packetData SerializeLayers exSource exTarget exSolicited [0xaa, 0xbb, 0xcc] =
      .ok exShortPacket ∧
    exShortPacket.drop 24 = [1, (2 + [0xaa, 0xbb, 0xcc].length) / 8 % 256] ++ [0xaa, 0xbb, 0xcc] ∧
    packetData SerializeLayers exSource exTarget exSolicited exHardwareAddr = .ok exPacket ∧
    (2 + exHardwareAddr.length) % 8 = 0 ∧ exHardwareAddr.length ≤ 2038 ∧
    (exPacket.drop 24).length = 8 * Nat.ceil (((2 + exHardwareAddr.length : Nat) : ℚ) / 8) :=
  ⟨by decide, rfl,
   (option_encoding_library exSource exTarget exSolicited [0xaa, 0xbb, 0xcc] exShortPacket
     (by decide) (by rfl)).1,
   rfl, by decide, by decide,
   ((option_encoding_library exSource exTarget exSolicited exHardwareAddr exPacket
     (by decide) (by rfl)).2.2.2 (by decide) (by decide)).2⟩

/-- Claim C5, as stated, fails. In the world `exWorldNoHardwareAddr`, whose
interface has an empty hardware address, the build of `sendNS` does not fail:
the call writes the 26 bytes of `exEmptyPacket`, whose option is 01 00, and
returns nil. -/
theorem sendNS_empty_hardwareAddr_counterexample :
    sendNS exWorldNoHardwareAddr [] "lo" exSource exTarget =
      ([Event.InterfaceByName "lo" true, Event.ListenPacket "ip6:58" "::" (some 3),
        Event.SetMulticastHopLimit 3 255 true,
        Event.WriteTo 3 exEmptyPacket ⟨exSource, 1⟩ exSolicited true,
        Event.Stdout "Successfully sent Neighbor Solicitation (NS) for %s to %s\n"
          [Arg.ip exTarget, Arg.ip exSolicited],
        Event.Stdout "  Source IP: %s\n" [Arg.ip exSource], Event.Close 3],
       Outcome.returned none) ∧
    exEmptyPacket.length = 26 ∧ exEmptyPacket.drop 24 = [1, 0] := by
  refine ⟨rfl, rfl, rfl⟩

/-- Claim C5, amended. When the interface found by `sendNS` has an empty
hardware address and the call reaches the build (the connection opens, the hop
limit is set, the target has 16 bytes): for a 16-byte source the build
succeeds with the 26 bytes 135, 0, the two bytes of the checksum, four zero
bytes, T, 1, 0, the call writes them once, and it returns nil when the write
succeeds and the error "failed to write packet" when it fails; for a source
that is not 16 bytes long the call returns the error
"failed to serialize icmpv6 ns layer" and writes nothing. -/
theorem sendNS_empty_hardwareAddr_sends (w : World) (h : List Event) (ifaceName : String)
    (sourceIP targetIP : List Nat) (iface : Interface) (conn : Nat)
    (hser : w.SerializeLayers = SerializeLayers)
    (hi : w.InterfaceByName h ifaceName = .ok iface) (hw : iface.HardwareAddr = [])
    (hl : w.ListenPacket (h ++ [Event.InterfaceByName ifaceName true]) "ip6:58" "::" = .ok conn)
    (hs : w.SetMulticastHopLimit (h ++ [Event.InterfaceByName ifaceName true,
      Event.ListenPacket "ip6:58" "::" (some conn)]) conn 255 = none)
    (hT : targetIP.length = 16) :
    (sourceIP.length = 16 → ∃ sn c ok, solicitedNodeAddr targetIP = some sn ∧
      c = checksum (pseudoHeader ⟨sourceIP, sn, IPProtocolICMPv6⟩ 26 ++
        ([135, 0, 0, 0, 0, 0, 0, 0] ++ targetIP ++ [1, 0])) ∧
      (sendNS w h ifaceName sourceIP targetIP).1.filter Event.isWrite =
        [Event.WriteTo conn ([135, 0, c / 256, c % 256, 0, 0, 0, 0] ++ targetIP ++ [1, 0])
          ⟨sourceIP, iface.Index⟩ sn ok] ∧
      (ok = true → (sendNS w h ifaceName sourceIP targetIP).2 = Outcome.returned none) ∧
      (ok = false → ∃ err, (sendNS w h ifaceName sourceIP targetIP).2 =
        Outcome.returned (some (Errorf "failed to write packet: " err "")))) ∧
    (sourceIP.length ≠ 16 →
      (sendNS w h ifaceName sourceIP targetIP).2 = Outcome.returned (some
        (Errorf "failed to serialize icmpv6 ns layer: " (GoError.leaf "ChecksumInputError")
          "")) ∧
      ∀ e ∈ (sendNS w h ifaceName sourceIP targetIP).1, e.isWrite = false) := by
  obtain ⟨sn, hsn, hsl⟩ : ∃ sn, solicitedNodeAddr targetIP = some sn ∧ sn.length = 16 :=
    ⟨_, solicitedNodeAddr_of_le targetIP (by omega), rfl⟩
  constructor
  · intro hS
    have hce : nsChecksum sourceIP sn targetIP [] =
        checksum (pseudoHeader ⟨sourceIP, sn, IPProtocolICMPv6⟩ 26 ++
          ([135, 0, 0, 0, 0, 0, 0, 0] ++ targetIP ++ [1, 0])) := by
      unfold nsChecksum
      rw [targetField_eq targetIP hT]
      simp [hT, optionBytes, ICMPv6OptSourceAddress, optionLengthByte]
    have hpd : packetData w.SerializeLayers sourceIP targetIP sn iface.HardwareAddr =
        .ok ([135, 0, nsChecksum sourceIP sn targetIP [] / 256,
          nsChecksum sourceIP sn targetIP [] % 256, 0, 0, 0, 0] ++ targetIP ++ [1, 0]) := by
      rw [hser, hw, packetData_eq sourceIP targetIP sn [] hS hsl, targetField_eq targetIP hT]
      simp [optionBytes, ICMPv6OptSourceAddress, optionLengthByte]
    simp only [sendNS, hi, List.cons_append, List.nil_append, hl, hs, hsn, hpd]
    split
    · rename_i err hwr
      exact ⟨sn, _, false, rfl, hce, rfl, by simp, fun _ => ⟨err, rfl⟩⟩
    · exact ⟨sn, _, true, rfl, hce, rfl, fun _ => rfl, by simp⟩
  · intro hS
    have hpd : packetData w.SerializeLayers sourceIP targetIP sn iface.HardwareAddr =
        .error (GoError.leaf "ChecksumInputError") := by
      rw [hser]
      have h2 : sourceIP.length ≠ 16 ∨ sn.length ≠ 16 := Or.inl hS
      simp only [packetData, SerializeLayers, if_true, if_pos h2]
    simp only [sendNS, hi, List.cons_append, List.nil_append, hl, hs, hsn, hpd]
    refine ⟨trivial, ?_⟩
    intro e he
    simp at he
    rcases he with rfl | rfl | rfl | rfl <;> rfl

/-- Witness of claim C5, amended, in the world `exWorldNoHardwareAddr`: the
one write of the call carries a message of 26 bytes that ends in 01 00. -/
theorem sendNS_empty_hardwareAddr_sends_witness :
    exSource.length = 16 ∧
    ∃ sn c ok, solicitedNodeAddr exTarget = some sn ∧
      c = checksum (pseudoHeader ⟨exSource, sn, IPProtocolICMPv6⟩ 26 ++
        ([135, 0, 0, 0, 0, 0, 0, 0] ++ exTarget ++ [1, 0])) ∧
      (sendNS exWorldNoHardwareAddr [] "lo" exSource exTarget).1.filter Event.isWrite =
        [Event.WriteTo 3 ([135, 0, c / 256, c % 256, 0, 0, 0, 0] ++ exTarget ++ [1, 0])
          ⟨exSource, 1⟩ sn ok] ∧
      (ok = true →
        (sendNS exWorldNoHardwareAddr [] "lo" exSource exTarget).2 = Outcome.returned none) ∧
      (ok = false → ∃ err, (sendNS exWorldNoHardwareAddr [] "lo" exSource exTarget).2 =
        Outcome.returned (some (Errorf "failed to write packet: " err ""))) :=
  ⟨rfl, (sendNS_empty_hardwareAddr_sends exWorldNoHardwareAddr [] "lo" exSource exTarget
    ⟨1, []⟩ 3 rfl rfl rfl rfl rfl rfl).1 rfl⟩

/-- Claim C6, at failing inputs. With a nil target address, in a world where
the interface exists, the connection opens and the hop limit is set, `sendNS`
does not return an error: it panics on the index `targetIP[13]`, the
connection is closed by the deferred call, and no packet is written; the same
happens with the 4-byte target 192.0.2.1. In auto gateway mode with a route
lookup that succeeds without a gateway the process makes one call of `sendNS`
for its three source addresses and ends with exit code 2. -/
theorem sendNS_nil_target_panics :
    sendNS exWorld [] "eth0" exSource [] =
      ([Event.InterfaceByName "eth0" true, Event.ListenPacket "ip6:58" "::" (some 3),
        Event.SetMulticastHopLimit 3 255 true, Event.Close 3],
       Outcome.panicked "runtime error: index out of range") ∧
    sendNS exWorld [] "eth0" exSource [192, 0, 2, 1] =
      ([Event.InterfaceByName "eth0" true, Event.ListenPacket "ip6:58" "::" (some 3),
        Event.SetMulticastHopLimit 3 255 true, Event.Close 3],
       Outcome.panicked "runtime error: index out of range") ∧
    (discover exWorldNoGateway "eth0").2 = some ([],
      [exSource, [0, 0, 0, 0, 0, 0, 0, 0, 0, 0, 0, 0, 0, 0, 0, 1],
        [0xfe, 0x80, 0, 0, 0, 0, 0, 0, 0, 0, 0, 0, 0, 0, 0, 1]]) ∧
    sendNSCalls (main exWorldNoGateway ⟨"eth0", "", "", true⟩).1 = [("eth0", exSource, [])] ∧
    (main exWorldNoGateway ⟨"eth0", "", "", true⟩).2 = 2 := by
  refine ⟨rfl, rfl, rfl, rfl, rfl⟩

/-- Claim C8. When the lookup of the named interface fails, `sendNS` returns
the error "failed to get interface", which wraps the error of the lookup, and
the failed lookup is the only event of the call: no connection is opened, no
hop limit is set, nothing is written. -/
theorem sendNS_interface_not_found (w : World) (h : List Event) (ifaceName : String)
    (sourceIP targetIP : List Nat) (err : GoError)
    (hi : w.InterfaceByName h ifaceName = .error err) :
    sendNS w h ifaceName sourceIP targetIP =
      ([Event.InterfaceByName ifaceName false],
       Outcome.returned (some (GoError.wrapf
         ("failed to get interface " ++ ifaceName ++ ": " ++ err.Error ++ "") err))) := by
  simp only [sendNS, hi, Errorf]

/-- Witness of claim C8 in the world `exWorldNoInterface`. -/
theorem sendNS_interface_not_found_witness :
    sendNS exWorldNoInterface [] "eth9" exSource exTarget =
      ([Event.InterfaceByName "eth9" false],
       Outcome.returned (some (GoError.wrapf
         "failed to get interface eth9: no such network interface"
         (GoError.leaf "no such network interface")))) :=
  sendNS_interface_not_found exWorldNoInterface [] "eth9" exSource exTarget
    (GoError.leaf "no such network interface") rfl

/-- Claim C9. In every run of `sendNS`: a packet write on a connection comes
after a successful setting of the multicast hop limit of that connection to
255; every setting of the hop limit asks for 255; and when the setting fails
the call returns the error "failed to set multicast hop limit" and writes
nothing. -/
theorem sendNS_hop_limit (w : World) (h : List Event) (ifaceName : String)
    (sourceIP targetIP : List Nat) :
    (∀ pre post conn b cm dst ok,
      (sendNS w h ifaceName sourceIP targetIP).1 = pre ++ Event.WriteTo conn b cm dst ok :: post →
      Event.SetMulticastHopLimit conn 255 true ∈ pre) ∧
    (∀ conn hoplim ok,
      Event.SetMulticastHopLimit conn hoplim ok ∈ (sendNS w h ifaceName sourceIP targetIP).1 →
      hoplim = 255) ∧
    (∀ conn hoplim,
      Event.SetMulticastHopLimit conn hoplim false ∈ (sendNS w h ifaceName sourceIP targetIP).1 →
      (∃ err, (sendNS w h ifaceName sourceIP targetIP).2 =
        Outcome.returned (some (Errorf "failed to set multicast hop limit: " err ""))) ∧
      ∀ e ∈ (sendNS w h ifaceName sourceIP targetIP).1, e.isWrite = false) := by
  refine ⟨?_, ?_, ?_⟩
  · intro pre post conn b cm dst ok heq
    simp only [sendNS] at heq
    repeat' split at heq
    all_goals
      rcases pre with _ | ⟨p0, _ | ⟨p1, _ | ⟨p2, _ | ⟨p3, _ | ⟨p4, _ | ⟨p5, _ | ⟨p6, pre⟩⟩⟩⟩⟩⟩⟩ <;>
        simp at heq ⊢
    all_goals
      obtain ⟨-, -, rfl, ⟨rfl, -⟩, -⟩ := heq
      simp
  · intro conn hoplim ok hmem
    simp only [sendNS] at hmem
    repeat' split at hmem
    all_goals simp at hmem
    all_goals exact hmem.2.1
  · intro conn hoplim hmem
    simp only [sendNS] at hmem ⊢
    repeat' split at hmem
    all_goals simp at hmem
    refine ⟨⟨_, rfl⟩, ?_⟩
    intro e he
    simp at he
    rcases he with rfl | rfl | rfl | rfl <;> rfl

/-- Witness of claim C9: in the world `exWorld` the write of the call comes
after the hop limit of connection 3 is set to 255, and in the world
`exWorldNoHopLimit` the call returns the error and writes nothing. -/
theorem sendNS_hop_limit_witness :
    (sendNS exWorld [] "eth0" exSource exTarget).1 =
      [Event.InterfaceByName "eth0" true, Event.ListenPacket "ip6:58" "::" (some 3),
        Event.SetMulticastHopLimit 3 255 true] ++
      Event.WriteTo 3 exPacket ⟨exSource, 2⟩ exSolicited true ::
      [Event.Stdout "Successfully sent Neighbor Solicitation (NS) for %s to %s\n"
          [Arg.ip exTarget, Arg.ip exSolicited],
        Event.Stdout "  Source IP: %s\n" [Arg.ip exSource], Event.Close 3] ∧
    Event.SetMulticastHopLimit 3 255 true ∈
      [Event.InterfaceByName "eth0" true, Event.ListenPacket "ip6:58" "::" (some 3),
        Event.SetMulticastHopLimit 3 255 true] ∧
    Event.SetMulticastHopLimit 3 255 false ∈
      (sendNS exWorldNoHopLimit [] "eth0" exSource exTarget).1 ∧
    ((∃ err, (sendNS exWorldNoHopLimit [] "eth0" exSource exTarget).2 =
        Outcome.returned (some (Errorf "failed to set multicast hop limit: " err ""))) ∧
      ∀ e ∈ (sendNS exWorldNoHopLimit [] "eth0" exSource exTarget).1, e.isWrite = false) :=
  ⟨rfl,
   (sendNS_hop_limit exWorld [] "eth0" exSource exTarget).1 _ _ 3 exPacket ⟨exSource, 2⟩
     exSolicited true rfl,
   by decide,
   (sendNS_hop_limit exWorldNoHopLimit [] "eth0" exSource exTarget).2.2 3 255 (by decide)⟩

/-- Claim C10. A call of `sendNS` that returns nil wrote exactly once: the
payload is the result of the serializer on the ICMPv6 layer of type 135 and
code 0, whose pseudo-header has source S, destination the solicited-node
address of T and next-header 58, and on the Neighbor Solicitation layer with
target T and the one option of type 1 holding the hardware address of the
interface; the control message has source S and the index of the interface
that the lookup of the name returned; the destination of the write is the
same solicited-node address. -/
theorem sendNS_success_single_write (w : World) (h : List Event) (ifaceName : String)
    (sourceIP targetIP : List Nat)
    (hok : (sendNS w h ifaceName sourceIP targetIP).2 = Outcome.returned none) :
    ∃ iface conn solicited data,
      w.InterfaceByName h ifaceName = .ok iface ∧
      solicitedNodeAddr targetIP = some solicited ∧
      w.SerializeLayers ⟨true, true⟩ ⟨(135, 0), some ⟨sourceIP, solicited, 58⟩⟩
        ⟨targetIP, [⟨1, iface.HardwareAddr⟩]⟩ = .ok data ∧
      (sendNS w h ifaceName sourceIP targetIP).1.filter Event.isWrite =
        [Event.WriteTo conn data ⟨sourceIP, iface.Index⟩ solicited true] := by
  simp only [sendNS] at hok ⊢
  repeat' split at hok
  all_goals simp [Errorf] at hok
  rename_i _ iface hi _ conn _ _ _ _ solicited hs _ data hd _ _
  exact ⟨iface, conn, solicited, data, hi, hs, hd, rfl⟩

/-- Witness of claim C10 in the world `exWorld`. -/
theorem sendNS_success_single_write_witness :
    (sendNS exWorld [] "eth0" exSource exTarget).2 = Outcome.returned none ∧
    ∃ iface conn solicited data,
      exWorld.InterfaceByName [] "eth0" = .ok iface ∧
      solicitedNodeAddr exTarget = some solicited ∧
      exWorld.SerializeLayers ⟨true, true⟩ ⟨(135, 0), some ⟨exSource, solicited, 58⟩⟩
        ⟨exTarget, [⟨1, iface.HardwareAddr⟩]⟩ = .ok data ∧
      (sendNS exWorld [] "eth0" exSource exTarget).1.filter Event.isWrite =
        [Event.WriteTo conn data ⟨exSource, iface.Index⟩ solicited true] :=
  ⟨rfl, sendNS_success_single_write exWorld [] "eth0" exSource exTarget rfl⟩

/-- Claim C7. In auto gateway mode, when the discovery ends with a gateway
of 16 bytes and the list of the IPv6 source addresses of the interface, that
list is not empty, the calls of `sendNS` made by `main` are exactly one per
source address, in list order, each with the interface name and the gateway,
whatever the calls return in the world, and the exit code is 0. -/
theorem main_auto_mode (w : World) (f : Flags) (gatewayIP : List Nat)
    (srcs : List (List Nat)) (hi : f.iface ≠ "") (hgw : f.gateway = true)
    (hd : (discover w f.iface).2 = some (gatewayIP, srcs)) (hg : gatewayIP.length = 16) :
    srcs ≠ [] ∧
    sendNSCalls (main w f).1 = srcs.map (fun s => (f.iface, s, gatewayIP)) ∧
    (sendNSCalls (main w f).1).length = srcs.length ∧
    (main w f).2 = 0 := by
  have hne := discover_ne_nil w f.iface gatewayIP srcs hd
  have hdc := sendNSCalls_discover w f.iface
  rcases hdis : discover w f.iface with ⟨t, r⟩
  rw [hdis] at hd hdc
  simp only at hd hdc
  subst hd
  obtain ⟨hc, hn⟩ := sendAll_calls w f.iface gatewayIP (by omega) srcs t
  rcases hall : sendAll w f.iface gatewayIP t srcs with ⟨t1, o⟩
  rw [hall] at hc hn
  simp only at hc hn
  subst hn
  have hm : main w f = (t ++ t1, 0) := by
    simp only [main, if_neg hi, hgw, if_true, hdis, hall]
  rw [hm]
  simp only [sendNSCalls_append, hdc, hc, List.nil_append, List.length_map]
  exact ⟨hne, trivial, trivial, trivial⟩

/-- Witness of claim C7 in the world `exWorldFlaky`, with three source
addresses: the first call fails to open its connection, the two later calls
write their packets, and the exit code is 0. -/
theorem main_auto_mode_witness :
    (discover exWorldFlaky "eth0").2 = some (exTarget,
      [exSource, [0, 0, 0, 0, 0, 0, 0, 0, 0, 0, 0, 0, 0, 0, 0, 1],
        [0xfe, 0x80, 0, 0, 0, 0, 0, 0, 0, 0, 0, 0, 0, 0, 0, 1]]) ∧
    Event.ListenPacket "ip6:58" "::" none ∈ (main exWorldFlaky ⟨"eth0", "", "", true⟩).1 ∧
    ((main exWorldFlaky ⟨"eth0", "", "", true⟩).1.filter Event.isWrite).length = 2 ∧
    sendNSCalls (main exWorldFlaky ⟨"eth0", "", "", true⟩).1 =
      [("eth0", exSource, exTarget),
        ("eth0", [0, 0, 0, 0, 0, 0, 0, 0, 0, 0, 0, 0, 0, 0, 0, 1], exTarget),
        ("eth0", [0xfe, 0x80, 0, 0, 0, 0, 0, 0, 0, 0, 0, 0, 0, 0, 0, 1], exTarget)] ∧
    (main exWorldFlaky ⟨"eth0", "", "", true⟩).2 = 0 :=
  ⟨rfl, by decide, by decide,
   (main_auto_mode exWorldFlaky ⟨"eth0", "", "", true⟩ exTarget
      [exSource, [0, 0, 0, 0, 0, 0, 0, 0, 0, 0, 0, 0, 0, 0, 0, 1],
        [0xfe, 0x80, 0, 0, 0, 0, 0, 0, 0, 0, 0, 0, 0, 0, 0, 1]]
      (by decide) rfl rfl rfl).2.1,
   (main_auto_mode exWorldFlaky ⟨"eth0", "", "", true⟩ exTarget
      [exSource, [0, 0, 0, 0, 0, 0, 0, 0, 0, 0, 0, 0, 0, 0, 0, 1],
        [0xfe, 0x80, 0, 0, 0, 0, 0, 0, 0, 0, 0, 0, 0, 0, 0, 1]]
      (by decide) rfl rfl rfl).2.2.2⟩

end Nser
